import Mathlib

/-!
Shallow embedding of `src/bulk_subscribe.py` (class `YouTubeBulkSubscriber`)
and verification of the specification claims about it.

Python string idioms used by the source (`sep in s`, `s.split(sep)[-1]`,
`s.split(sep)[0]`, `s.strip()`) are modelled on `List Char`, with `String`
wrappers used by the embedded operations.
-/

/-- Boolean test: is `p` a prefix of `s`? -/
def isPrefixL : List Char → List Char → Bool
  | [], _ => true
  | _ :: _, [] => false
  | c :: cs, d :: ds => c == d && isPrefixL cs ds

/-- Split `s` at the first occurrence of `p`: `some (before, after)`, or
`none` when `p` does not occur in `s`. -/
def firstSplit (p : List Char) : List Char → Option (List Char × List Char)
  | [] => if p.isEmpty then some ([], []) else none
  | c :: rest =>
    if isPrefixL p (c :: rest) then some ([], (c :: rest).drop p.length)
    else (firstSplit p rest).map (fun q => (c :: q.1, q.2))

/-- Python `p in s`. -/
def containsL (p s : List Char) : Bool := (firstSplit p s).isSome

/-- Python `s.split(p)[0]`: the part of `s` before the first occurrence of
`p`, or all of `s` when `p` does not occur. -/
def beforeFirstL (p s : List Char) : List Char :=
  match firstSplit p s with
  | some q => q.1
  | none => s

/-- Fuel-driven scan used to compute the last chunk of a Python split. -/
def afterLastAux (p : List Char) : Nat → List Char → List Char
  | 0, s => s
  | fuel + 1, s =>
    match firstSplit p s with
    | none => s
    | some q => afterLastAux p fuel q.2

/-- Python `s.split(p)[-1]`: the part of `s` after the last (left-to-right,
non-overlapping) occurrence of `p`, or all of `s` when `p` does not occur. -/
def afterLastL (p s : List Char) : List Char := afterLastAux p s.length s

/-- Python `pat in s` on strings. -/
def strContains (s pat : String) : Bool := containsL pat.data s.data

/-- Python `s.split(pat)[0]` on strings. -/
def strBeforeFirst (pat s : String) : String := String.mk (beforeFirstL pat.data s.data)

/-- Python `s.split(pat)[-1]` on strings. -/
def strAfterLast (pat s : String) : String := String.mk (afterLastL pat.data s.data)

/-- Characters removed by Python `str.strip()` (ASCII whitespace). -/
def pyWhitespace (c : Char) : Bool :=
  c == ' ' || c == '\t' || c == '\n' || c == '\r' || c == Char.ofNat 11 || c == Char.ofNat 12

/-- Python `s.strip()`. -/
def pyStrip (s : String) : String :=
  String.mk (((s.data.dropWhile pyWhitespace).reverse.dropWhile pyWhitespace).reverse)

/-- Characters `urllib.parse` strips from a URL before parsing
(`_UNSAFE_URL_BYTES_TO_REMOVE`). -/
def isUnsafeUrlChar (c : Char) : Bool := c == '\t' || c == '\r' || c == '\n'

/-- Characters admissible in a URL scheme for `urllib.parse`
(ASCII letters, digits, `+`, `-`, `.`). -/
def isSchemeChar (c : Char) : Bool :=
  c.isAlpha || c.isDigit || c == '+' || c == '-' || c == '.'

/-- The scheme-stripping step of `urllib.parse.urlsplit`: when the text
before the first `:` is non-empty, starts with an ASCII letter and
consists of scheme characters, parsing continues on the text after the
`:`. -/
def stripScheme (s : List Char) : List Char :=
  match firstSplit [':'] s with
  | some (b, a) =>
    match b with
    | [] => s
    | c0 :: _ => if c0.isAlpha && b.all isSchemeChar then a else s
  | none => s

/-- The netloc (authority) `urllib.parse.urlsplit` extracts: present only
after a leading `//`, ending at the first `/`, `?` or `#`. -/
def netlocOf (s : List Char) : List Char :=
  match s with
  | '/' :: '/' :: rest => rest.takeWhile (fun c => !(c == '/' || c == '?' || c == '#'))
  | _ => []

/-- The netloc the line-68 `urlparse(url)` call of the source computes. -/
def urlparseNetloc (url : String) : List Char :=
  netlocOf (stripScheme (url.data.filter (fun c => !isUnsafeUrlChar c)))

/-- The condition under which the line-68 `urlparse(url)` raises
`ValueError("Invalid IPv6 URL")`: the netloc mentions `[` or `]` without
the other. -/
def urlparseInvalidIPv6 (url : String) : Bool :=
  ((urlparseNetloc url).contains '[' && !(urlparseNetloc url).contains ']') ||
  ((urlparseNetloc url).contains ']' && !(urlparseNetloc url).contains '[')

/-- Python exceptions raised and caught by the embedded code: `ValueError`
(carrying its message) and `googleapiclient.errors.HttpError` (carrying the
service-reported error reason extracted at line 166-171 of the source). -/
inductive PyErr where
  | valueError (msg : String)
  | httpError (reason : String)
deriving DecidableEq, Repr

/-- One request issued to the external YouTube Data API, with the parameter
the specification claims talk about. -/
inductive ApiCall where
  | searchList (q : String)
  | channelsList (username : String)
  | subscriptionsList (channelId : String)
  | subscriptionsInsert (channelId : String)
deriving DecidableEq, Repr

/-- An observable event of a bulk run: an API call or a `time.sleep(delay)`
suspension. -/
inductive RunEvent where
  | call (c : ApiCall)
  | sleep (d : ℚ)
deriving DecidableEq, Repr

/-- Is this run event a `time.sleep` suspension? -/
def RunEvent.isSleep : RunEvent → Bool
  | .sleep _ => true
  | .call _ => false

/-- Outcome of `subscribe_to_channel` for one channel, distinguishing the
three return sites of the source (already-subscribed / newly created /
failed with the service-reported reason). -/
inductive SubOutcome where
  | alreadySubscribed
  | created
  | failed (reason : String)
deriving DecidableEq, Repr

/-- The `bool` actually returned by the Python `subscribe_to_channel`:
`True` for both success shapes, `False` for a failure. -/
def SubOutcome.toBool : SubOutcome → Bool
  | .failed _ => false
  | .alreadySubscribed => true
  | .created => true

/-- The two counters accumulated by `bulk_subscribe`. -/
structure RunSummary where
  successful : Nat
  failed : Nat
deriving DecidableEq, Repr

/-- The external YouTube Data API, as consumed by the source: each operation
takes its request parameter and the service state, and returns either a
result or an `HttpError` reason, plus the next service state.  `σ` is the
state of the external service (instantiate with `Unit` for a stateless
service). -/
structure YouTubeService (σ : Type) where
  search_list : String → σ → Except String (List String) × σ
  channels_list : String → σ → Except String (List String) × σ
  subscriptions_list : String → σ → Except String (List String) × σ
  subscriptions_insert : String → σ → Except String Unit × σ

/-- Embedding of `YouTubeBulkSubscriber.resolve_custom_url` (lines 85-110):
build the search query from an `@` handle or a `c/` custom name, issue one
channel search, and return the first result, a `ValueError` when the result
set is empty, or the re-raised `HttpError`. -/
def resolve_custom_url {σ : Type} (svc : YouTubeService σ) (url : String) (s : σ) :
    Except PyErr String × σ × List ApiCall :=
  let search_query :=
    if strContains url "@" then "@" ++ strBeforeFirst "?" (strAfterLast "@" url)
    else strBeforeFirst "?" (strAfterLast "c/" url)
  match svc.search_list search_query s with
  | (Except.ok items, s1) =>
    match items with
    | [] => (Except.error (PyErr.valueError ("Could not find channel for URL: " ++ url)),
             s1, [ApiCall.searchList search_query])
    | id :: _ => (Except.ok id, s1, [ApiCall.searchList search_query])
  | (Except.error e, s1) => (Except.error (PyErr.httpError e), s1, [ApiCall.searchList search_query])

/-- Embedding of `YouTubeBulkSubscriber.get_channel_id_by_username`
(lines 112-126): one `channels().list(forUsername=...)` lookup. -/
def get_channel_id_by_username {σ : Type} (svc : YouTubeService σ) (username : String) (s : σ) :
    Except PyErr String × σ × List ApiCall :=
  match svc.channels_list username s with
  | (Except.ok items, s1) =>
    match items with
    | [] => (Except.error (PyErr.valueError ("Channel not found for username: " ++ username)),
             s1, [ApiCall.channelsList username])
    | id :: _ => (Except.ok id, s1, [ApiCall.channelsList username])
  | (Except.error e, s1) => (Except.error (PyErr.httpError e), s1, [ApiCall.channelsList username])

/-- Embedding of `YouTubeBulkSubscriber.extract_channel_id` (lines 66-83):
the line-68 `urlparse(url)` call first (its result is unused, but it
raises `ValueError("Invalid IPv6 URL")` on a bracket-unbalanced
authority), then the ordered substring dispatch over the four URL
schemes. -/
def extract_channel_id {σ : Type} (svc : YouTubeService σ) (url : String) (s : σ) :
    Except PyErr String × σ × List ApiCall :=
  if urlparseInvalidIPv6 url then
    (Except.error (PyErr.valueError "Invalid IPv6 URL"), s, [])
  else if strContains url "channel/" then
    (Except.ok (strBeforeFirst "?" (strAfterLast "channel/" url)), s, [])
  else if strContains url "c/" || strContains url "@" then
    resolve_custom_url svc url s
  else if strContains url "user/" then
    get_channel_id_by_username svc (strBeforeFirst "?" (strAfterLast "user/" url)) s
  else
    (Except.error (PyErr.valueError ("Unable to parse channel URL: " ++ url)), s, [])

/-- The create-subscription step of `subscribe_to_channel` (lines 145-178),
reached when the existence check found nothing or itself errored: issue the
insert mutation and normalize its result, mapping a
`subscriptionDuplicate` error reason to the already-subscribed success. -/
def subscribe_insert {σ : Type} (svc : YouTubeService σ) (channel_id : String) (s : σ) :
    SubOutcome × σ × List ApiCall :=
  match svc.subscriptions_insert channel_id s with
  | (Except.ok _, s2) =>
    (SubOutcome.created, s2,
     [ApiCall.subscriptionsList channel_id, ApiCall.subscriptionsInsert channel_id])
  | (Except.error reason, s2) =>
    if reason = "subscriptionDuplicate" then
      (SubOutcome.alreadySubscribed, s2,
       [ApiCall.subscriptionsList channel_id, ApiCall.subscriptionsInsert channel_id])
    else
      (SubOutcome.failed reason, s2,
       [ApiCall.subscriptionsList channel_id, ApiCall.subscriptionsInsert channel_id])

/-- Embedding of `YouTubeBulkSubscriber.subscribe_to_channel`
(lines 128-178): check existing subscriptions (an `HttpError` of the check
is swallowed, line 142-143), then create the subscription if needed. -/
def subscribe_to_channel {σ : Type} (svc : YouTubeService σ) (channel_id : String) (s : σ) :
    SubOutcome × σ × List ApiCall :=
  match svc.subscriptions_list channel_id s with
  | (Except.ok items, s1) =>
    if !items.isEmpty then
      (SubOutcome.alreadySubscribed, s1, [ApiCall.subscriptionsList channel_id])
    else subscribe_insert svc channel_id s1
  | (Except.error _, s1) => subscribe_insert svc channel_id s1

/-- Did the existence check of `subscribe_to_channel` find a subscription
(query succeeded and returned a non-empty item list)? -/
def check_finds_existing {σ : Type} (svc : YouTubeService σ) (channel_id : String) (s : σ) : Bool :=
  match svc.subscriptions_list channel_id s with
  | (Except.ok items, _) => !items.isEmpty
  | (Except.error _, _) => false

/-- The final success-rate expression of `bulk_subscribe` (line 209):
`successful / (successful + failed) * 100`.  `none` models the
`ZeroDivisionError` Python raises when both counters are zero. -/
def success_rate (successful failed : Nat) : Option ℚ :=
  if successful + failed = 0 then none
  else some ((successful : ℚ) / ((successful : ℚ) + (failed : ℚ)) * 100)

/-- One iteration of the `bulk_subscribe` loop body (lines 190-200): strip
the URL, resolve it, subscribe, and reduce to the success `Bool`; any
exception escaping resolution is caught at the item boundary and counted
as a failure. -/
def process_item {σ : Type} (svc : YouTubeService σ) (url : String) (s : σ) :
    Bool × σ × List ApiCall :=
  match extract_channel_id svc (pyStrip url) s with
  | (Except.ok channel_id, s1, calls1) =>
    let r := subscribe_to_channel svc channel_id s1
    (r.1.toBool, r.2.1, calls1 ++ r.2.2)
  | (Except.error _, s1, calls1) => (false, s1, calls1)

/-- The `for` loop of `bulk_subscribe` (lines 187-204), accumulating the
two counters; `rest.isEmpty` renders the source's `i < len(channel_urls)`
guard (the current item is not the last one). -/
def bulk_loop {σ : Type} (svc : YouTubeService σ) (delay : ℚ) :
    List String → Nat → Nat → σ → (Nat × Nat) × σ × List RunEvent
  | [], successful, failed, s => ((successful, failed), s, [])
  | url :: rest, successful, failed, s =>
    let r := process_item svc url s
    let successful2 := if r.1 then successful + 1 else successful
    let failed2 := if r.1 then failed else failed + 1
    let pace : List RunEvent := if rest.isEmpty then [] else [RunEvent.sleep delay]
    let rec2 := bulk_loop svc delay rest successful2 failed2 r.2.1
    (rec2.1, rec2.2.1, r.2.2.map RunEvent.call ++ pace ++ rec2.2.2)

/-- Result of a bulk run: the reported counters, the success rate of the
final print (`none` models the `ZeroDivisionError`), the final service
state, and the ordered trace of API calls and sleeps. -/
structure BulkResult (σ : Type) where
  summary : RunSummary
  rate : Option ℚ
  finalState : σ
  events : List RunEvent

/-- Embedding of `YouTubeBulkSubscriber.bulk_subscribe` (lines 180-209). -/
def bulk_subscribe {σ : Type} (svc : YouTubeService σ) (channel_urls : List String)
    (delay : ℚ) (s : σ) : BulkResult σ :=
  let r := bulk_loop svc delay channel_urls 0 0 s
  { summary := { successful := r.1.1, failed := r.1.2 },
    rate := success_rate r.1.1 r.1.2,
    finalState := r.2.1,
    events := r.2.2 }

/-- Join event blocks with a separator block between consecutive blocks
(used to state the pacing claim: one sleep between adjacent items). -/
def joinBlocks (sep : List RunEvent) : List (List RunEvent) → List RunEvent
  | [] => []
  | [b] => b
  | b :: bs => b ++ sep ++ joinBlocks sep bs

/-- Modelled from the spec (section 6, External Interfaces): state of the
external subscription service, namely the set of channels the
authenticated account is subscribed to.  The service itself is not part of
this repository. -/
structure ServerState where
  subs : List String
deriving DecidableEq, Repr

/-- Modelled from the spec (section 6): the external service semantics used
by the idempotence claim.  `listMySubscriptions` returns the matching
subscriptions (or an error when `checkOk` is false, modelling a racy or
failing existence check) and `createSubscription` reports
`subscriptionDuplicate` on an existing subscription. -/
def idealService (checkOk : Bool) : YouTubeService ServerState :=
  { search_list := fun _ st => (Except.ok [], st)
    channels_list := fun _ st => (Except.ok [], st)
    subscriptions_list := fun ch st =>
      (if checkOk then Except.ok (if st.subs.contains ch then [ch] else [])
       else Except.error "backendError", st)
    subscriptions_insert := fun ch st =>
      if st.subs.contains ch then (Except.error "subscriptionDuplicate", st)
      else (Except.ok (), { subs := ch :: st.subs }) }

/-- A stateless service on which every operation succeeds (used by concrete
witnesses). -/
def svcOk : YouTubeService Unit :=
  { search_list := fun _ s => (Except.ok ["UCsearched"], s)
    channels_list := fun _ s => (Except.ok ["UCuser"], s)
    subscriptions_list := fun _ s => (Except.ok [], s)
    subscriptions_insert := fun _ s => (Except.ok (), s) }

/-- A stateless service whose existence check always errors (witness for the
swallowed-check-error claim). -/
def svcCheckErr : YouTubeService Unit :=
  { search_list := fun _ s => (Except.ok ["UCsearched"], s)
    channels_list := fun _ s => (Except.ok ["UCuser"], s)
    subscriptions_list := fun _ s => (Except.error "backendError", s)
    subscriptions_insert := fun _ s => (Except.ok (), s) }

/-- A stateless service whose insert always reports a duplicate
subscription (witness for the duplicate-remap claim). -/
def svcDup : YouTubeService Unit :=
  { search_list := fun _ s => (Except.ok ["UCsearched"], s)
    channels_list := fun _ s => (Except.ok ["UCuser"], s)
    subscriptions_list := fun _ s => (Except.ok [], s)
    subscriptions_insert := fun _ s => (Except.error "subscriptionDuplicate", s) }

/-- Concrete URL list for the partial-failure witness: the middle reference
matches no scheme. -/
def urlsW : List String :=
  ["https://www.youtube.com/channel/UCaaa", "not-a-url",
   "https://www.youtube.com/channel/UCbbb"]

theorem firstSplit_nil (p : List Char) :
    firstSplit p [] = if p.isEmpty then some ([], []) else none := rfl

theorem firstSplit_cons (p : List Char) (c : Char) (rest : List Char) :
    firstSplit p (c :: rest) =
      if isPrefixL p (c :: rest) then some ([], (c :: rest).drop p.length)
      else (firstSplit p rest).map (fun q => (c :: q.1, q.2)) := rfl

theorem isPrefixL_iff (p : List Char) :
    ∀ s, isPrefixL p s = true ↔ ∃ t, s = p ++ t := by
  induction p with
  | nil =>
    intro s
    simp [isPrefixL]
  | cons c cs ih =>
    intro s
    cases s with
    | nil =>
      simp [isPrefixL]
    | cons d ds =>
      simp only [isPrefixL, Bool.and_eq_true, beq_iff_eq, ih ds]
      constructor
      · rintro ⟨h1, t, h2⟩
        subst h1
        exact ⟨t, by rw [h2]; rfl⟩
      · rintro ⟨t, h⟩
        injection h with h1 h2
        exact ⟨h1.symm, t, h2⟩

theorem firstSplit_some (p : List Char) :
    ∀ s b a, firstSplit p s = some (b, a) → s = b ++ p ++ a := by
  intro s
  induction s with
  | nil =>
    intro b a h
    by_cases hp : p.isEmpty
    · simp only [firstSplit_nil, hp, if_true, Option.some.injEq, Prod.mk.injEq] at h
      rcases h with ⟨h1, h2⟩
      subst h1; subst h2
      simp [List.isEmpty_iff.mp hp]
    · simp [firstSplit_nil, hp] at h
  | cons c rest ih =>
    intro b a h
    by_cases hpre : isPrefixL p (c :: rest) = true
    · simp only [firstSplit_cons, hpre, if_true, Option.some.injEq, Prod.mk.injEq] at h
      rcases h with ⟨h1, h2⟩
      subst h1
      rcases (isPrefixL_iff p (c :: rest)).mp hpre with ⟨t, ht⟩
      rw [ht] at h2 ⊢
      rw [List.drop_left] at h2
      subst h2
      simp
    · rw [firstSplit_cons, if_neg hpre] at h
      cases hfs2 : firstSplit p rest with
      | none => rw [hfs2] at h; simp at h
      | some q =>
        rw [hfs2] at h
        rcases q with ⟨qb, qa⟩
        simp only [Option.map_some', Option.some.injEq, Prod.mk.injEq] at h
        rcases h with ⟨h1, h2⟩
        subst h1; subst h2
        have := ih qb qa hfs2
        rw [this]
        simp

theorem containsL_of_decomp (p : List Char) :
    ∀ x y, containsL p (x ++ p ++ y) = true := by
  intro x
  induction x with
  | nil =>
    intro y
    simp only [List.nil_append]
    unfold containsL
    cases p with
    | nil =>
      cases y with
      | nil => simp [firstSplit]
      | cons c rest => simp [firstSplit, isPrefixL]
    | cons pc pcs =>
      have hpre : isPrefixL (pc :: pcs) ((pc :: pcs) ++ y) = true :=
        (isPrefixL_iff _ _).mpr ⟨y, rfl⟩
      have he : (pc :: pcs) ++ y = pc :: (pcs ++ y) := rfl
      rw [he] at hpre ⊢
      rw [firstSplit_cons, if_pos hpre]
      rfl
  | cons c xs ih =>
    intro y
    unfold containsL
    by_cases hpre : isPrefixL p (c :: (xs ++ p ++ y)) = true
    · simp only [List.cons_append, List.append_assoc]
      simp only [List.cons_append, List.append_assoc] at hpre
      rw [firstSplit_cons, if_pos hpre]
      rfl
    · simp only [List.cons_append, List.append_assoc]
      simp only [List.cons_append, List.append_assoc] at hpre
      rw [firstSplit_cons, if_neg hpre]
      have hih := ih y
      unfold containsL at hih
      simp only [List.append_assoc] at hih
      cases hfs : firstSplit p (xs ++ (p ++ y)) with
      | none => rw [hfs] at hih; simp at hih
      | some q => rfl

theorem containsL_exists (p s : List Char) (h : containsL p s = true) :
    ∃ b a, s = b ++ p ++ a := by
  unfold containsL at h
  cases hfs : firstSplit p s with
  | none => rw [hfs] at h; simp at h
  | some q =>
    rcases q with ⟨b, a⟩
    exact ⟨b, a, firstSplit_some p s b a hfs⟩

theorem containsL_append_left (p x y : List Char) (h : containsL p x = true) :
    containsL p (x ++ y) = true := by
  rcases containsL_exists p x h with ⟨b, a, rfl⟩
  have := containsL_of_decomp p b (a ++ y)
  simpa [List.append_assoc] using this

theorem containsL_append_right (p x y : List Char) (h : containsL p y = true) :
    containsL p (x ++ y) = true := by
  rcases containsL_exists p y h with ⟨b, a, rfl⟩
  have := containsL_of_decomp p (x ++ b) a
  simpa [List.append_assoc] using this

theorem not_containsL_left (p x y : List Char)
    (h : containsL p (x ++ y) = false) : containsL p x = false := by
  cases hx : containsL p x with
  | false => rfl
  | true => rw [containsL_append_left p x y hx] at h; exact absurd h (by simp)

theorem not_containsL_right (p x y : List Char)
    (h : containsL p (x ++ y) = false) : containsL p y = false := by
  cases hy : containsL p y with
  | false => rfl
  | true => rw [containsL_append_right p x y hy] at h; exact absurd h (by simp)

theorem bulk_loop_sum {σ : Type} (svc : YouTubeService σ) (d : ℚ) :
    ∀ (urls : List String) (succ fail : Nat) (s : σ),
      (bulk_loop svc d urls succ fail s).1.1 + (bulk_loop svc d urls succ fail s).1.2 =
        succ + fail + urls.length := by
  intro urls
  induction urls with
  | nil => intro succ fail s; simp [bulk_loop]
  | cons url rest ih =>
    intro succ fail s
    simp only [bulk_loop, List.length_cons]
    cases hok : (process_item svc url s).1 with
    | true =>
      simp only [hok, if_true]
      have h := ih (succ + 1) fail (process_item svc url s).2.1
      omega
    | false =>
      simp only [Bool.false_eq_true, if_false]
      have h := ih succ (fail + 1) (process_item svc url s).2.1
      omega

/-- C10: after the bulk run, the success and failure counters sum to the
number of input references - each item increments exactly one of the two
counters exactly once. -/
theorem bulk_counter_invariant {σ : Type} (svc : YouTubeService σ)
    (urls : List String) (d : ℚ) (s : σ) :
    (bulk_subscribe svc urls d s).summary.successful +
      (bulk_subscribe svc urls d s).summary.failed = urls.length := by
  have h := bulk_loop_sum svc d urls 0 0 s
  simpa [bulk_subscribe] using h

/-- C1: on an empty reference list both counters are zero and the final
success-rate expression `successful / (successful + failed) * 100`
(line 209) divides by zero - `rate = none` models the `ZeroDivisionError`
Python raises there, contradicting the claim that the computation never
raises; the claim's second part does hold: 3 successes and 1 failure give
a rate of 75.0%. -/
theorem bulk_empty_rate_zero_division {σ : Type} (svc : YouTubeService σ) (d : ℚ) (s : σ) :
    (bulk_subscribe svc [] d s).summary = { successful := 0, failed := 0 } ∧
    (bulk_subscribe svc [] d s).rate = none ∧
    success_rate 3 1 = some 75 := by
  refine ⟨rfl, rfl, ?_⟩
  norm_num [success_rate]

/-- C5: a reference containing none of `channel/`, `c/`, `@`, `user/`
fails with a `ValueError` - either the line-68 urlparse
`Invalid IPv6 URL` error or the line-83 unable-to-parse error, both the
spec's `UnresolvableReference` - performs no external call, and leaves
the service state untouched. -/
theorem extract_unresolvable {σ : Type} (svc : YouTubeService σ) (url : String) (s : σ)
    (h1 : strContains url "channel/" = false) (h2 : strContains url "c/" = false)
    (h3 : strContains url "@" = false) (h4 : strContains url "user/" = false) :
    ∃ msg, extract_channel_id svc url s =
      (Except.error (PyErr.valueError msg), s, []) := by
  cases hv : urlparseInvalidIPv6 url with
  | true =>
    exact ⟨"Invalid IPv6 URL", by simp [extract_channel_id, hv]⟩
  | false =>
    exact ⟨"Unable to parse channel URL: " ++ url,
      by simp [extract_channel_id, hv, h1, h2, h3, h4]⟩

theorem extract_unresolvable_witness :
    strContains "not-a-url" "channel/" = false ∧
    (∃ msg, extract_channel_id svcOk "not-a-url" () =
      (Except.error (PyErr.valueError msg), (), [])) :=
  ⟨by decide,
   extract_unresolvable svcOk "not-a-url" () (by decide) (by decide) (by decide) (by decide)⟩

theorem subscribe_insert_of_error {σ : Type} (svc : YouTubeService σ) (ch : String) (s : σ)
    (reason : String) (h : (svc.subscriptions_insert ch s).1 = Except.error reason) :
    (subscribe_insert svc ch s).1 =
      if reason = "subscriptionDuplicate" then SubOutcome.alreadySubscribed
      else SubOutcome.failed reason := by
  unfold subscribe_insert
  cases hi : svc.subscriptions_insert ch s with
  | mk ins s2 =>
    have h2 : ins = Except.error reason := by rw [hi] at h; exact h
    subst h2
    by_cases hr : reason = "subscriptionDuplicate"
    · simp [hr]
    · simp [hr]

/-- C6: when the existing-subscription check itself errors, the error is
swallowed - for every error reason - and the operation proceeds to issue
the create-subscription mutation, exactly as if not yet subscribed. -/
theorem subscribe_check_error_ignored {σ : Type} (svc : YouTubeService σ)
    (ch : String) (s s1 : σ) (e : String)
    (h : svc.subscriptions_list ch s = (Except.error e, s1)) :
    subscribe_to_channel svc ch s = subscribe_insert svc ch s1 ∧
    ApiCall.subscriptionsInsert ch ∈ (subscribe_to_channel svc ch s).2.2 := by
  have h1 : subscribe_to_channel svc ch s = subscribe_insert svc ch s1 := by
    unfold subscribe_to_channel
    rw [h]
  refine ⟨h1, ?_⟩
  rw [h1]
  unfold subscribe_insert
  cases hi : svc.subscriptions_insert ch s1 with
  | mk ins s2 =>
    cases ins with
    | ok u => simp
    | error reason =>
      by_cases hr : reason = "subscriptionDuplicate"
      · simp [hr]
      · simp [hr]

theorem subscribe_check_error_ignored_witness :
    svcCheckErr.subscriptions_list "UCx" () = (Except.error "backendError", ()) ∧
    (subscribe_to_channel svcCheckErr "UCx" () = subscribe_insert svcCheckErr "UCx" () ∧
     ApiCall.subscriptionsInsert "UCx" ∈ (subscribe_to_channel svcCheckErr "UCx" ()).2.2) :=
  ⟨rfl, subscribe_check_error_ignored svcCheckErr "UCx" () () "backendError" rfl⟩

/-- C7: a create-subscription failure whose service-reported reason is
`subscriptionDuplicate` always yields the `AlreadySubscribed` success
outcome, never a failure; any other creation failure (reached when the
existence check did not already report a subscription) yields
`Failed(reason)` carrying the underlying reason. -/
theorem subscribe_duplicate_remap {σ : Type} (svc : YouTubeService σ)
    (ch : String) (s : σ) (reason : String)
    (hins : (svc.subscriptions_insert ch (svc.subscriptions_list ch s).2).1 =
      Except.error reason) :
    (reason = "subscriptionDuplicate" →
      (subscribe_to_channel svc ch s).1 = SubOutcome.alreadySubscribed) ∧
    (reason ≠ "subscriptionDuplicate" → check_finds_existing svc ch s = false →
      (subscribe_to_channel svc ch s).1 = SubOutcome.failed reason) := by
  revert hins
  unfold subscribe_to_channel check_finds_existing
  cases hc : svc.subscriptions_list ch s with
  | mk chk s1 =>
    intro hins
    cases chk with
    | ok items =>
      cases hempty : items.isEmpty with
      | true =>
        have hout := subscribe_insert_of_error svc ch s1 reason hins
        constructor
        · intro hr
          simp [hempty, hout, hr]
        · intro hr _
          simp [hempty, hout, hr]
      | false =>
        constructor
        · intro _
          simp [hempty]
        · intro _ hfalse
          simp [hempty] at hfalse
    | error e =>
      have hout := subscribe_insert_of_error svc ch s1 reason hins
      constructor
      · intro hr
        simp [hout, hr]
      · intro hr _
        simp [hout, hr]

theorem subscribe_duplicate_remap_witness :
    (svcDup.subscriptions_insert "UCx" (svcDup.subscriptions_list "UCx" ()).2).1 =
      Except.error "subscriptionDuplicate" ∧
    (("subscriptionDuplicate" = "subscriptionDuplicate" →
      (subscribe_to_channel svcDup "UCx" ()).1 = SubOutcome.alreadySubscribed) ∧
     ("subscriptionDuplicate" ≠ "subscriptionDuplicate" →
      check_finds_existing svcDup "UCx" () = false →
      (subscribe_to_channel svcDup "UCx" ()).1 = SubOutcome.failed "subscriptionDuplicate")) :=
  ⟨rfl, subscribe_duplicate_remap svcDup "UCx" () "subscriptionDuplicate" rfl⟩

theorem ideal_subscribe_mem (b : Bool) (st : ServerState) (ch : String) :
    ((subscribe_to_channel (idealService b) ch st).2.1).subs.contains ch = true := by
  by_cases hc : ch ∈ st.subs
  · cases b <;> simp [subscribe_to_channel, subscribe_insert, idealService, hc]
  · cases b <;> simp [subscribe_to_channel, subscribe_insert, idealService, hc]

theorem ideal_subscribe_already (b : Bool) (st : ServerState) (ch : String)
    (h : st.subs.contains ch = true) :
    (subscribe_to_channel (idealService b) ch st).1 = SubOutcome.alreadySubscribed := by
  have h2 : ch ∈ st.subs := by simpa using h
  cases b <;> simp [subscribe_to_channel, subscribe_insert, idealService, h2]

theorem ideal_subscribe_not_failed (b : Bool) (st : ServerState) (ch : String)
    (reason : String) :
    (subscribe_to_channel (idealService b) ch st).1 ≠ SubOutcome.failed reason := by
  by_cases hc : ch ∈ st.subs
  · cases b <;> simp [subscribe_to_channel, subscribe_insert, idealService, hc]
  · cases b <;> simp [subscribe_to_channel, subscribe_insert, idealService, hc]

/-- C8: invoking subscribe twice on the same identifier (against the
external service semantics of the spec, with either call's existence
check allowed to fail/race) yields `AlreadySubscribed` on the second
call, never two `Created` outcomes, and never a reported failure caused
by duplication. -/
theorem subscribe_idempotent (b1 b2 : Bool) (st : ServerState) (ch : String) :
    (subscribe_to_channel (idealService b2) ch
        (subscribe_to_channel (idealService b1) ch st).2.1).1 =
      SubOutcome.alreadySubscribed ∧
    ¬((subscribe_to_channel (idealService b1) ch st).1 = SubOutcome.created ∧
      (subscribe_to_channel (idealService b2) ch
        (subscribe_to_channel (idealService b1) ch st).2.1).1 = SubOutcome.created) ∧
    ∀ reason,
      (subscribe_to_channel (idealService b1) ch st).1 ≠ SubOutcome.failed reason ∧
      (subscribe_to_channel (idealService b2) ch
        (subscribe_to_channel (idealService b1) ch st).2.1).1 ≠ SubOutcome.failed reason := by
  have hmem := ideal_subscribe_mem b1 st ch
  have h2 := ideal_subscribe_already b2 _ ch hmem
  refine ⟨h2, ?_, ?_⟩
  · rintro ⟨_, hcr⟩
    rw [h2] at hcr
    exact SubOutcome.noConfusion hcr
  · intro reason
    exact ⟨ideal_subscribe_not_failed b1 st ch reason,
           ideal_subscribe_not_failed b2 _ ch reason⟩

theorem bulk_loop_counts_unit (svc : YouTubeService Unit) (d : ℚ) :
    ∀ (urls : List String) (succ fail : Nat),
      (bulk_loop svc d urls succ fail ()).1 =
        (succ + urls.countP (fun u => (process_item svc u ()).1),
         fail + urls.countP (fun u => !(process_item svc u ()).1)) := by
  intro urls
  induction urls with
  | nil => intro succ fail; simp [bulk_loop]
  | cons url rest ih =>
    intro succ fail
    simp only [bulk_loop, List.countP_cons]
    have hst : (process_item svc url ()).2.1 = () := rfl
    rw [hst]
    cases hok : (process_item svc url ()).1 with
    | true =>
      simp only [eq_self_iff_true, if_true, Bool.not_true, Bool.false_eq_true, if_false]
      rw [ih (succ + 1) fail]
      simp only [Prod.mk.injEq]
      constructor <;> omega
    | false =>
      simp only [Bool.false_eq_true, if_false, Bool.not_false, eq_self_iff_true, if_true]
      rw [ih succ (fail + 1)]
      simp only [Prod.mk.injEq]
      constructor <;> omega

/-- C2: with a stateless service, a failing item does not abort the run:
the two counters partition the whole input list, every reference
contributes its own independent per-item outcome, and the failing item
contributes one failure. -/
theorem bulk_partial_failure_isolation (svc : YouTubeService Unit)
    (urls : List String) (d : ℚ) (k : Nat) (hk : k < urls.length)
    (hfail : (process_item svc urls[k] ()).1 = false) :
    (bulk_subscribe svc urls d ()).summary.successful =
      urls.countP (fun u => (process_item svc u ()).1) ∧
    (bulk_subscribe svc urls d ()).summary.failed =
      urls.countP (fun u => !(process_item svc u ()).1) ∧
    (bulk_subscribe svc urls d ()).summary.successful +
      (bulk_subscribe svc urls d ()).summary.failed = urls.length ∧
    1 ≤ (bulk_subscribe svc urls d ()).summary.failed := by
  have hc := bulk_loop_counts_unit svc d urls 0 0
  have hsucc : (bulk_subscribe svc urls d ()).summary.successful =
      urls.countP (fun u => (process_item svc u ()).1) := by
    simp only [bulk_subscribe]
    rw [hc]
    simp
  have hfailc : (bulk_subscribe svc urls d ()).summary.failed =
      urls.countP (fun u => !(process_item svc u ()).1) := by
    simp only [bulk_subscribe]
    rw [hc]
    simp
  refine ⟨hsucc, hfailc, ?_, ?_⟩
  · have hsum := bulk_loop_sum svc d urls 0 0 ()
    simpa [bulk_subscribe] using hsum
  · rw [hfailc]
    have hmem : urls[k] ∈ urls := List.getElem_mem hk
    have hpos : 0 < urls.countP (fun u => !(process_item svc u ()).1) := by
      rw [List.countP_pos_iff]
      exact ⟨urls[k], hmem, by simp [hfail]⟩
    omega

theorem bulk_partial_failure_isolation_witness :
    1 < urlsW.length ∧ (process_item svcOk "not-a-url" ()).1 = false ∧
    ((bulk_subscribe svcOk urlsW 1 ()).summary.successful =
      urlsW.countP (fun u => (process_item svcOk u ()).1) ∧
     (bulk_subscribe svcOk urlsW 1 ()).summary.failed =
      urlsW.countP (fun u => !(process_item svcOk u ()).1) ∧
     (bulk_subscribe svcOk urlsW 1 ()).summary.successful +
      (bulk_subscribe svcOk urlsW 1 ()).summary.failed = urlsW.length ∧
     1 ≤ (bulk_subscribe svcOk urlsW 1 ()).summary.failed) :=
  ⟨by decide, by decide,
   bulk_partial_failure_isolation svcOk urlsW 1 1 (by decide) (by decide)⟩

theorem joinBlocks_cons_cons (sep b b2 : List RunEvent) (bs : List (List RunEvent)) :
    joinBlocks sep (b :: b2 :: bs) = b ++ sep ++ joinBlocks sep (b2 :: bs) := rfl

theorem countP_zero_of_clean (l : List RunEvent)
    (h : ∀ e ∈ l, RunEvent.isSleep e = false) :
    l.countP RunEvent.isSleep = 0 := by
  rw [List.countP_eq_zero]
  intro a ha
  simp [h a ha]

theorem countP_joinBlocks (d : ℚ) :
    ∀ blocks : List (List RunEvent),
      (∀ b ∈ blocks, ∀ e ∈ b, RunEvent.isSleep e = false) →
      (joinBlocks [RunEvent.sleep d] blocks).countP RunEvent.isSleep =
        blocks.length - 1 := by
  intro blocks
  induction blocks with
  | nil => intro _; simp [joinBlocks]
  | cons b bs ih =>
    intro hclean
    cases bs with
    | nil =>
      have hb : ∀ e ∈ b, RunEvent.isSleep e = false := hclean b (by simp)
      simp [joinBlocks, countP_zero_of_clean b hb]
    | cons b2 bs2 =>
      rw [joinBlocks_cons_cons, List.countP_append, List.countP_append]
      have hb : ∀ e ∈ b, RunEvent.isSleep e = false := hclean b (by simp)
      have hrest := ih (fun bb hbb e he => hclean bb (by simp [hbb]) e he)
      rw [countP_zero_of_clean b hb, hrest]
      simp [List.countP_cons, RunEvent.isSleep]
      omega

theorem mem_joinBlocks (sep : List RunEvent) :
    ∀ (blocks : List (List RunEvent)) (e : RunEvent),
      e ∈ joinBlocks sep blocks → (∃ b ∈ blocks, e ∈ b) ∨ e ∈ sep := by
  intro blocks
  induction blocks with
  | nil => intro e he; simp [joinBlocks] at he
  | cons b bs ih =>
    intro e he
    cases bs with
    | nil =>
      left
      exact ⟨b, by simp, by simpa [joinBlocks] using he⟩
    | cons b2 bs2 =>
      rw [joinBlocks_cons_cons] at he
      rcases List.mem_append.mp he with h1 | h2
      · rcases List.mem_append.mp h1 with hb | hsep
        · left; exact ⟨b, by simp, hb⟩
        · right; exact hsep
      · rcases ih e h2 with ⟨bb, hbb, hbe⟩ | hs
        · left; exact ⟨bb, by simp [hbb], hbe⟩
        · right; exact hs

theorem bulk_loop_events_cons {σ : Type} (svc : YouTubeService σ) (d : ℚ)
    (url : String) (rest : List String) (succ fail : Nat) (s : σ) :
    (bulk_loop svc d (url :: rest) succ fail s).2.2 =
      (process_item svc url s).2.2.map RunEvent.call ++
        (if rest.isEmpty then [] else [RunEvent.sleep d]) ++
        (bulk_loop svc d rest
          (if (process_item svc url s).1 then succ + 1 else succ)
          (if (process_item svc url s).1 then fail else fail + 1)
          (process_item svc url s).2.1).2.2 := rfl

theorem bulk_loop_events {σ : Type} (svc : YouTubeService σ) (d : ℚ) :
    ∀ (urls : List String) (succ fail : Nat) (s : σ),
      ∃ blocks : List (List RunEvent),
        blocks.length = urls.length ∧
        (∀ b ∈ blocks, ∀ e ∈ b, RunEvent.isSleep e = false) ∧
        (bulk_loop svc d urls succ fail s).2.2 =
          joinBlocks [RunEvent.sleep d] blocks := by
  intro urls
  induction urls with
  | nil =>
    intro succ fail s
    exact ⟨[], rfl, by simp, rfl⟩
  | cons url rest ih =>
    intro succ fail s
    cases rest with
    | nil =>
      refine ⟨[(process_item svc url s).2.2.map RunEvent.call], rfl, ?_, ?_⟩
      · intro b hb e he
        simp only [List.mem_singleton] at hb
        subst hb
        rcases List.mem_map.mp he with ⟨c, _, rfl⟩
        rfl
      · simp [bulk_loop, joinBlocks]
    | cons url2 rest2 =>
      rcases ih (if (process_item svc url s).1 then succ + 1 else succ)
          (if (process_item svc url s).1 then fail else fail + 1)
          (process_item svc url s).2.1 with ⟨blocks, hlen, hclean, hev⟩
      refine ⟨(process_item svc url s).2.2.map RunEvent.call :: blocks, ?_, ?_, ?_⟩
      · simp [hlen]
      · intro b hb e he
        rcases List.mem_cons.mp hb with rfl | hb2
        · rcases List.mem_map.mp he with ⟨c, _, rfl⟩
          rfl
        · exact hclean b hb2 e he
      · cases blocks with
        | nil => simp at hlen
        | cons bb bbs =>
          rw [joinBlocks_cons_cons, bulk_loop_events_cons]
          simp only [List.isEmpty_cons, Bool.false_eq_true, if_false]
          rw [hev]

/-- C9: a run over N references with delay d performs exactly N-1
inter-item suspensions, every suspension has duration d, and the event
trace is the N per-item call blocks joined by single sleeps - so there is
one sleep after every item except the last and none after the final
item. -/
theorem bulk_pacing {σ : Type} (svc : YouTubeService σ) (urls : List String)
    (d : ℚ) (s : σ) :
    ((bulk_subscribe svc urls d s).events.countP RunEvent.isSleep =
      urls.length - 1) ∧
    (∀ e ∈ (bulk_subscribe svc urls d s).events,
      RunEvent.isSleep e = true → e = RunEvent.sleep d) ∧
    (∃ blocks : List (List RunEvent),
      blocks.length = urls.length ∧
      (∀ b ∈ blocks, ∀ e ∈ b, RunEvent.isSleep e = false) ∧
      (bulk_subscribe svc urls d s).events =
        joinBlocks [RunEvent.sleep d] blocks) := by
  rcases bulk_loop_events svc d urls 0 0 s with ⟨blocks, hlen, hclean, hev⟩
  have hevents : (bulk_subscribe svc urls d s).events =
      joinBlocks [RunEvent.sleep d] blocks := by
    simpa [bulk_subscribe] using hev
  refine ⟨?_, ?_, blocks, hlen, hclean, hevents⟩
  · rw [hevents, countP_joinBlocks d blocks hclean, hlen]
  · intro e he hse
    rw [hevents] at he
    rcases mem_joinBlocks _ blocks e he with ⟨b, hb, hbe⟩ | hs
    · rw [hclean b hb e hbe] at hse
      exact absurd hse (by simp)
    · simpa using hs

